import Mathlib

/-! Formal model of the adb_client USB core: ADB message framing, the USB
transport read and write paths, endpoint discovery, device search, and the
CNXN/AUTH connection handshake, embedded from the Rust sources
(`adb_usb_device.rs`, `usb_transport.rs`, `usb_transport_libusb.rs`,
`usb_transport_nusb.rs`). Machine integers are modelled as `Nat` with
explicit reduction modulo 2^32 where overflow matters; payloads are lists
of byte values. -/

/-- Size of the u32 value space, used for wrapping arithmetic. -/
def U32_MOD : Nat := 4294967296

/-- Bitwise NOT on a u32 value: for `x < 2^32`, `!x = 0xffffffff - x`. -/
def u32not (x : Nat) : Nat := 0xffffffff - x % U32_MOD

/-- Kinds of `std::io::Error` that the modelled code paths construct or
propagate. -/
inductive IOErrorKind where
  | NotConnected
  | TimedOut
  | Other (msg : String)
deriving DecidableEq

/-- Error type mirroring the `RustADBError` variants used by the modelled
code paths. The enum itself lives in `error.rs`, which is not among the
provided sources; variant names follow the call sites visible in the
sources. `InvalidHeader` (header decode failure) and `Utf8Error`
(`String::from_utf8` failure) are modelled from the spec error taxonomy. -/
inductive RustADBError where
  | DeviceNotFound (msg : String)
  | ADBRequestFailed (msg : String)
  | USBNoDescriptorFound
  | InvalidIntegrity (computed : Nat) (header_crc : Nat)
  | InvalidHeader
  | IOError (kind : IOErrorKind)
  | Utf8Error
deriving DecidableEq

/-- Modelled from the spec: u32 values of the ADB wire commands
(`message_commands.rs` is not among the provided sources; values are the
ones of spec section 3, which match the little-endian ASCII of the command
names). -/
def CNXN : Nat := 0x4e584e43

/-- AUTH command value (spec section 3). -/
def AUTH : Nat := 0x48545541

/-- OPEN command value (spec section 3). -/
def OPEN : Nat := 0x4e45504f

/-- OKAY command value (spec section 3). -/
def OKAY : Nat := 0x59414b4f

/-- CLSE command value (spec section 3). -/
def CLSE : Nat := 0x45534c43

/-- WRTE command value (spec section 3). -/
def WRTE : Nat := 0x45545257

/-- SYNC command value (spec section 3). -/
def SYNC : Nat := 0x434e5953

/-- AUTH type: token challenge (spec section 4.5, `adb_transport_message.rs`
constants used in `adb_usb_device.rs`). -/
def AUTH_TOKEN : Nat := 1

/-- AUTH type: signature reply. -/
def AUTH_SIGNATURE : Nat := 2

/-- AUTH type: public key enrollment. -/
def AUTH_RSAPUBLICKEY : Nat := 3

/-- The 24-byte ADB message header (six little-endian u32 fields, spec
section 3). Fields are `Nat` values below 2^32 for headers produced by the
codec. -/
structure ADBTransportMessageHeader where
  command : Nat
  arg0 : Nat
  arg1 : Nat
  data_length : Nat
  data_crc32 : Nat
  magic : Nat
deriving DecidableEq

/-- An ADB message: header plus payload byte sequence. -/
structure ADBTransportMessage where
  header : ADBTransportMessageHeader
  payload : List Nat
deriving DecidableEq

/-- Modelled from the spec: `compute_crc32` of `adb_transport_message.rs`
(not among the provided sources) is the wrapping u32 sum of the payload
bytes (spec sections 3 and 4.1). -/
def compute_crc32 (payload : List Nat) : Nat :=
  payload.foldl (fun acc b => (acc + b) % U32_MOD) 0

/-- Modelled from the spec: `ADBTransportMessage::new` derives
`data_length` and `data_crc32` from the payload and `magic` as the bitwise
NOT of the command (spec sections 3 and 4.2; `adb_transport_message.rs` is
not among the provided sources). The `as u32` length cast is modelled by
reduction modulo 2^32. -/
def ADBTransportMessage.new (command arg0 arg1 : Nat) (payload : List Nat) :
    ADBTransportMessage :=
  { header :=
      { command := command
        arg0 := arg0
        arg1 := arg1
        data_length := payload.length % U32_MOD
        data_crc32 := compute_crc32 payload
        magic := u32not command }
    payload := payload }

/-- Modelled from the spec: integrity holds iff the wrapping byte sum of the
payload equals the header checksum field (spec section 3). -/
def check_message_integrity (m : ADBTransportMessage) : Bool :=
  compute_crc32 m.payload == m.header.data_crc32

/-- Little-endian serialization of a u32 into four bytes. -/
def toLE4 (x : Nat) : List Nat :=
  [x % 256, x / 256 % 256, x / 65536 % 256, x / 16777216 % 256]

/-- Serialize a header into its 24-byte wire form (spec section 6). -/
def encodeHeader (h : ADBTransportMessageHeader) : List Nat :=
  toLE4 h.command ++ toLE4 h.arg0 ++ toLE4 h.arg1 ++ toLE4 h.data_length ++
    toLE4 h.data_crc32 ++ toLE4 h.magic

/-- Little-endian reconstruction of a u32 from four bytes. -/
def le4 (b0 b1 b2 b3 : Nat) : Nat := b0 + 256 * b1 + 65536 * b2 + 16777216 * b3

/-- Modelled from the spec: header decoding
(`ADBTransportMessageHeader::try_from`, in `adb_transport_message.rs`, not
among the provided sources). Reads the six little-endian u32 fields from 24
bytes and verifies `magic == !command`, failing otherwise (spec sections
4.1 and 7: `InvalidHeader` on magic mismatch or truncated read). Unknown
command values decode successfully. -/
def decodeHeader : List Nat → Except RustADBError ADBTransportMessageHeader
  | [c0, c1, c2, c3, a0, a1, a2, a3, b0, b1, b2, b3,
     l0, l1, l2, l3, r0, r1, r2, r3, m0, m1, m2, m3] =>
    let command := le4 c0 c1 c2 c3
    let magic := le4 m0 m1 m2 m3
    if magic = u32not command then
      .ok { command := command
            arg0 := le4 a0 a1 a2 a3
            arg1 := le4 b0 b1 b2 b3
            data_length := le4 l0 l1 l2 l3
            data_crc32 := le4 r0 r1 r2 r3
            magic := magic }
    else .error .InvalidHeader
  | _ => .error .InvalidHeader

/-- A claimed bulk endpoint: interface number and endpoint address
(`EndpointDesc` in `usb_transport.rs`). -/
structure EndpointDesc where
  iface : Nat
  address : Nat
deriving DecidableEq

/-- State of a `USBTransport` (`usb_transport.rs`): whether a device handle
is open and which bulk endpoints are recorded. -/
structure USBTransportState where
  device_open : Bool
  read_endpoint : Option EndpointDesc
  write_endpoint : Option EndpointDesc
deriving DecidableEq

/-- The bulk-in filling loop of `read_message_with_timeout`
(`usb_transport.rs` lines 192-213): repeatedly call `read_bulk` until `n`
bytes are accumulated. The device side is modelled by `stream` (the bytes
the device delivers, in order) and `sched` (the byte count each bulk
completion delivers; the loop takes `min` of that and the bytes still
needed). Returns the bytes read, the unconsumed stream and the unconsumed
schedule; `none` models a bulk call that times out (schedule or stream
exhausted before the buffer is filled). -/
def readExact : List Nat → List Nat → Nat →
    Option (List Nat × List Nat × List Nat)
  | stream, sched, 0 => some ([], stream, sched)
  | _, [], _ + 1 => none
  | stream, c :: q, n + 1 =>
    let k := min c (n + 1)
    if k = 0 then readExact stream q (n + 1)
    else if stream.length < k then none
    else
      match readExact (List.drop k stream) q (n + 1 - k) with
      | some (bs, s, qq) => some (List.take k stream ++ bs, s, qq)
      | none => none

/-- `USBTransport::read_message_with_timeout` (`usb_transport.rs` lines
186-229, identical logic in `usb_transport_libusb.rs` lines 197-240 and
`usb_transport_nusb.rs` lines 290-331): require a configured read endpoint,
read exactly 24 header bytes looping over bulk-in, decode the header, and
if `data_length != 0` read exactly that many payload bytes looping over
bulk-in, then verify integrity, failing with `InvalidIntegrity (computed,
header field)` on mismatch. The result carries the unconsumed stream and
schedule so theorems can speak about how many bytes were read. -/
def read_message_with_timeout (st : USBTransportState)
    (stream sched : List Nat) :
    Except RustADBError (ADBTransportMessage × List Nat × List Nat) :=
  match st.read_endpoint with
  | none => .error (.IOError .NotConnected)
  | some _ =>
    match readExact stream sched 24 with
    | none => .error (.IOError .TimedOut)
    | some (hb, s1, q1) =>
      match decodeHeader hb with
      | .error e => .error e
      | .ok header =>
        if header.data_length ≠ 0 then
          match readExact s1 q1 header.data_length with
          | none => .error (.IOError .TimedOut)
          | some (pb, s2, q2) =>
            let message : ADBTransportMessage := { header := header, payload := pb }
            if check_message_integrity message then .ok (message, s2, q2)
            else .error (.InvalidIntegrity (compute_crc32 message.payload)
              message.header.data_crc32)
        else .ok ({ header := header, payload := [] }, s1, q1)

/-- Outcome of the bulk-out writes performed by `write_message` once a
write endpoint is configured: the USB bus either accepts the whole message
or some bulk call fails with an error (for instance a timeout). -/
inductive WriteOutcome where
  | success
  | failure (e : RustADBError)
deriving DecidableEq

/-- `USBTransport::write_message_with_timeout` (`usb_transport.rs` lines
156-184), abstracted over the bus: require a configured write endpoint
(else the `NotConnected` IO error), then the header and payload bulk-out
loops either complete or surface the failing bulk call's error. The
transport state is returned unchanged: the function mutates no field. -/
def write_message (st : USBTransportState) (_message : ADBTransportMessage)
    (bus : WriteOutcome) : Except RustADBError Unit × USBTransportState :=
  match st.write_endpoint with
  | none => (.error (.IOError .NotConnected), st)
  | some _ =>
    match bus with
    | .success => (.ok (), st)
    | .failure e => (.error e, st)

/-- `USBTransport::disconnect` (`usb_transport.rs` lines 149-153): build a
`CLSE` message with zero arguments and empty payload and return the result
of `write_message` on it. The third component records the message that was
handed to `write_message`. -/
def disconnect (st : USBTransportState) (bus : WriteOutcome) :
    Except RustADBError Unit × USBTransportState × ADBTransportMessage :=
  let message := ADBTransportMessage.new CLSE 0 0 []
  let r := write_message st message bus
  (r.1, r.2, message)

/-- `Drop for ADBUSBDevice` (`adb_usb_device.rs` lines 232-237): call
`disconnect` on the transport and discard its result (`let _ = ...`),
keeping only the resulting transport state. -/
def dropADBUSBDevice (st : USBTransportState) (bus : WriteOutcome) :
    USBTransportState :=
  (disconnect st bus).2.1

/-- Direction of a USB endpoint. -/
inductive USBDirection where
  | In
  | Out
deriving DecidableEq

/-- Transfer type of a USB endpoint. -/
inductive USBEndpointType where
  | Bulk
  | Control
  | Interrupt
  | Isochronous
deriving DecidableEq

/-- A USB endpoint descriptor: address, direction and transfer type. -/
structure USBEndpointInfo where
  address : Nat
  direction : USBDirection
  transfer_type : USBEndpointType
deriving DecidableEq

/-- A USB interface descriptor (one alt-setting): interface number, the
class triple, and its endpoints. -/
structure USBAltSetting where
  interface_number : Nat
  interface_class : Nat
  interface_subclass : Nat
  interface_protocol : Nat
  endpoints : List USBEndpointInfo
deriving DecidableEq

/-- A USB interface: its alt-settings. -/
structure USBInterfaceInfo where
  alt_settings : List USBAltSetting
deriving DecidableEq

/-- A USB configuration: its interfaces. -/
structure USBConfigInfo where
  interfaces : List USBInterfaceInfo
deriving DecidableEq

/-- A USB device as the transports see it: identifiers, whether opening it
succeeds, and its configuration descriptors. -/
structure USBDeviceModel where
  vendor_id : Nat
  product_id : Nat
  open_ok : Bool
  configurations : List USBConfigInfo
deriving DecidableEq

/-- The walk order of `find_endpoints`: configurations, then interfaces,
then alt-settings, then endpoints, each endpoint paired with the
alt-setting it belongs to (`usb_transport.rs` lines 95-98). -/
def deviceWalk (d : USBDeviceModel) : List (USBAltSetting × USBEndpointInfo) :=
  d.configurations.flatMap fun c =>
    c.interfaces.flatMap fun i =>
      i.alt_settings.flatMap fun a =>
        a.endpoints.map fun e => (a, e)

/-- The qualification test of `find_endpoints` (`usb_transport.rs` lines
99-103): a bulk endpoint on an interface with class `0xff`, subclass
`0x42`, protocol `0x01`. -/
def qualifiesEndpoint (p : USBAltSetting × USBEndpointInfo) : Bool :=
  p.2.transfer_type == .Bulk && p.1.interface_class == 0xff &&
    p.1.interface_subclass == 0x42 && p.1.interface_protocol == 0x01

/-- The body of the nested loops of `find_endpoints` (`usb_transport.rs`
lines 95-131), as a fold over the walk with the two mutable `Option`
accumulators: a qualifying IN endpoint returns immediately when an OUT is
already saved (and symmetrically), otherwise it is saved, overwriting any
previous save of the same direction. -/
def findLoop : List (USBAltSetting × USBEndpointInfo) → Option EndpointDesc →
    Option EndpointDesc → Except RustADBError (EndpointDesc × EndpointDesc)
  | [], _, _ => .error .USBNoDescriptorFound
  | p :: rest, r, w =>
    if qualifiesEndpoint p then
      let e : EndpointDesc := { iface := p.1.interface_number, address := p.2.address }
      match p.2.direction with
      | .In =>
        match w with
        | some we => .ok (e, we)
        | none => findLoop rest (some e) w
      | .Out =>
        match r with
        | some re => .ok (re, e)
        | none => findLoop rest r (some e)
    else findLoop rest r w

/-- `USBTransport::find_endpoints` (`usb_transport.rs` lines 91-131,
same logic in `usb_transport_libusb.rs` lines 92-137 and
`usb_transport_nusb.rs` lines 195-235): run the walk with both
accumulators empty; `USBNoDescriptorFound` when the walk ends without a
pair. -/
def find_endpoints (d : USBDeviceModel) :
    Except RustADBError (EndpointDesc × EndpointDesc) :=
  findLoop (deviceWalk d) none none

/-- `is_adb_device` (`usb_transport_libusb.rs` lines 269-297,
`usb_transport_nusb.rs` lines 427-452): some interface descriptor has
protocol `0x01` and either class `0xff` with subclass `0x42` or class
`0xdc` with subclass `0x02`. -/
def is_adb_device (d : USBDeviceModel) : Bool :=
  d.configurations.any fun c =>
    c.interfaces.any fun i =>
      i.alt_settings.any fun a =>
        a.interface_protocol == 1 &&
          ((a.interface_class == 0xff && a.interface_subclass == 0x42) ||
           (a.interface_class == 0xdc && a.interface_subclass == 2))

/-- One lowercase hexadecimal digit. -/
def hexDigit (n : Nat) : Char :=
  if n < 10 then Char.ofNat (48 + n) else Char.ofNat (87 + n)

/-- Rust `{:04x}` formatting of a u16 value. -/
def hex04 (n : Nat) : String :=
  String.mk
    [hexDigit (n / 4096 % 16), hexDigit (n / 256 % 16),
     hexDigit (n / 16 % 16), hexDigit (n % 16)]

/-- The error message built by `search_adb_devices` when at least two
devices match (`usb_transport_libusb.rs` lines 262-265). -/
def ambiguousMessage (vid1 pid1 vid2 pid2 : Nat) : String :=
  "Found two Android devices " ++ hex04 vid1 ++ ":" ++ hex04 pid1 ++
    " and " ++ hex04 vid2 ++ ":" ++ hex04 pid2

/-- `search_adb_devices` (`usb_transport_libusb.rs` lines 243-267,
`usb_transport_nusb.rs` lines 401-425): collect the `(vendor_id,
product_id)` of every device that opens successfully and satisfies
`is_adb_device`; none found gives `Ok(None)`, exactly one gives its pair,
two or more give a `DeviceNotFound` error citing the first two pairs. -/
def search_adb_devices (devices : List USBDeviceModel) :
    Except RustADBError (Option (Nat × Nat)) :=
  let found := (devices.filter fun d => d.open_ok && is_adb_device d).map
    fun d => (d.vendor_id, d.product_id)
  match found with
  | [] => .ok none
  | [identifiers] => .ok (some identifiers)
  | (vid1, pid1) :: (vid2, pid2) :: _ =>
    .error (.DeviceNotFound (ambiguousMessage vid1 pid1 vid2 pid2))

/-- One-step UTF-8 validation automaton. The state is `none` at a character
boundary, or `some (lo, hi, k)` when the next byte must lie in `[lo, hi]`
and `k` further continuation bytes in `[0x80, 0xbf]` must follow. Encodes
exactly the well-formed UTF-8 of RFC 3629 (no overlong forms, no
surrogates, no code points above `U+10FFFF`), which is what Rust's
`String::from_utf8` accepts. -/
def validUtf8From : Option (Nat × Nat × Nat) → List Nat → Bool
  | none, [] => true
  | some _, [] => false
  | none, b :: rest =>
    if b ≤ 0x7f then validUtf8From none rest
    else if 0xc2 ≤ b && b ≤ 0xdf then validUtf8From (some (0x80, 0xbf, 0)) rest
    else if b == 0xe0 then validUtf8From (some (0xa0, 0xbf, 1)) rest
    else if b == 0xed then validUtf8From (some (0x80, 0x9f, 1)) rest
    else if 0xe1 ≤ b && b ≤ 0xef then validUtf8From (some (0x80, 0xbf, 1)) rest
    else if b == 0xf0 then validUtf8From (some (0x90, 0xbf, 2)) rest
    else if b == 0xf4 then validUtf8From (some (0x80, 0x8f, 2)) rest
    else if 0xf1 ≤ b && b ≤ 0xf3 then validUtf8From (some (0x80, 0xbf, 2)) rest
    else false
  | some (lo, hi, k), b :: rest =>
    if lo ≤ b && b ≤ hi then
      validUtf8From (if k = 0 then none else some (0x80, 0xbf, k - 1)) rest
    else false

/-- Whether a byte sequence is valid UTF-8, as checked by the
`String::from_utf8(...)?` calls of `ADBUSBDevice::connect`
(`adb_usb_device.rs` lines 149 and 172). -/
def validUtf8 (l : List Nat) : Bool := validUtf8From none l

/-- An `ADBRsaKey` (`adb_rsa_key.rs` is not among the provided sources),
abstracted to what `connect` consumes: a signing function for the 20-byte
token and the Android public-key blob bytes produced by
`android_pubkey_encode` (spec section 4.3). -/
structure ADBRsaKeyModel where
  sign : List Nat → List Nat
  android_pubkey : List Nat

/-- Modelled from the spec: the session state owned by `ADBMessageDevice`
(`adb_message_device.rs` is not among the provided sources); `max_data` is
initialized to 0 and set by `set_maximum_data_size` (spec section 3). -/
structure SessionState where
  max_data : Nat
deriving DecidableEq

/-- The session state before any CNXN reply is processed. -/
def initialSession : SessionState := { max_data := 0 }

deriving instance DecidableEq for Except

/-- What a run of `ADBUSBDevice::connect` produces: the messages the host
wrote, in order, and either the final session state or the surfaced
error. -/
structure ConnectOutcome where
  sent : List ADBTransportMessage
  result : Except RustADBError SessionState
deriving DecidableEq

/-- The ASCII bytes of `"host::"`. -/
def hostBannerHead : List Nat := [104, 111, 115, 116, 58, 58]

/-- The NUL-terminated host banner `format!("host::{}\0", pkg)` of
`ADBUSBDevice::connect` (`adb_usb_device.rs` line 114); `pkg` is the
product identifier (the crate package name) as bytes. -/
def hostBanner (pkg : List Nat) : List Nat := hostBannerHead ++ pkg ++ [0]

/-- The `Duration::from_secs(10)` timeout of the enrollment read
(`adb_usb_device.rs` line 163), in milliseconds. -/
def ENROLL_READ_TIMEOUT_MS : Nat := 10000

/-- A scripted device reply: the delay in milliseconds before the reply
arrives on the bulk IN endpoint, and the reply message. -/
def DeviceScript : Type := List (Nat × ADBTransportMessage)

/-- `ADBUSBDevice::connect` (`adb_usb_device.rs` lines 107-176) against a
scripted device. The transport is assumed to connect and its bulk writes
to succeed (their failures would propagate unchanged); each read consumes
the next scripted reply. Reads before public-key enrollment are modelled
without a deadline, following spec section 4.5 which bounds only the
enrollment read (the `read_message` default timeout lives in the trait
file, not among the provided sources); a read on an exhausted script, or
an enrollment read whose reply arrives after the 10 s deadline, surfaces
the timed-out IO error produced by `read_bulk` (`usb_transport.rs` lines
261-264). Branches follow the source: a first reply `CNXN` records
`max_data = arg1`; a non-`AUTH` reply fails `assert_command`; an `AUTH`
reply with `arg0 != 1` fails; otherwise the signed token is sent, and a
second reply `CNXN` returns with the session state untouched, while any
other second reply triggers public-key enrollment followed by the
10-second-bounded read whose `CNXN` reply records `max_data = arg1`. -/
def connect (key : ADBRsaKeyModel) (pkg : List Nat) (script : DeviceScript) :
    ConnectOutcome :=
  let m0 := ADBTransportMessage.new CNXN 0x01000000 1048576 (hostBanner pkg)
  match script with
  | [] => { sent := [m0], result := .error (.IOError .TimedOut) }
  | (_, message1) :: rest1 =>
    if message1.header.command = CNXN then
      { sent := [m0], result := .ok { max_data := message1.header.arg1 } }
    else if message1.header.command ≠ AUTH then
      { sent := [m0], result := .error (.ADBRequestFailed "expected command Auth") }
    else if message1.header.arg0 ≠ AUTH_TOKEN then
      { sent := [m0],
        result := .error (.ADBRequestFailed "Received AUTH message with type != 1") }
    else
      let sign := key.sign message1.payload
      let msig := ADBTransportMessage.new AUTH AUTH_SIGNATURE 0 sign
      match rest1 with
      | [] => { sent := [m0, msig], result := .error (.IOError .TimedOut) }
      | (_, message2) :: rest2 =>
        if message2.header.command = CNXN then
          if validUtf8 message2.payload then
            { sent := [m0, msig], result := .ok initialSession }
          else { sent := [m0, msig], result := .error .Utf8Error }
        else
          let mpub := ADBTransportMessage.new AUTH AUTH_RSAPUBLICKEY 0
            (key.android_pubkey ++ [0])
          match rest2 with
          | [] => { sent := [m0, msig, mpub], result := .error (.IOError .TimedOut) }
          | (d3, message3) :: _ =>
            if ENROLL_READ_TIMEOUT_MS < d3 then
              { sent := [m0, msig, mpub], result := .error (.IOError .TimedOut) }
            else if message3.header.command ≠ CNXN then
              { sent := [m0, msig, mpub],
                result := .error (.ADBRequestFailed "expected command Cnxn") }
            else if validUtf8 message3.payload then
              { sent := [m0, msig, mpub],
                result := .ok { max_data := message3.header.arg1 } }
            else { sent := [m0, msig, mpub], result := .error .Utf8Error }

/-- Whether the next scripted reply arrives within `t` milliseconds. -/
def arrivesWithin (t : Nat) : DeviceScript → Bool
  | [] => false
  | (d, _) :: _ => d ≤ t

/-- Result of `std::fs::read_to_string` on the private-key path: the file
is absent (`ErrorKind::NotFound`), reading fails with another IO error, or
the contents are returned. -/
inductive FileReadResult where
  | notFound
  | otherError (kind : IOErrorKind)
  | contents (text : String)

/-- `read_adb_private_key` (`adb_usb_device.rs` lines 20-33): an absent
file gives `Ok(None)`; another read error surfaces; file contents are
handed to `ADBRsaKey::new_from_pkcs8` (whose body is not among the
provided sources, so it is a parameter here), and a parse failure is
logged and gives `Ok(None)`. -/
def read_adb_private_key (fs : FileReadResult)
    (new_from_pkcs8 : String → Except String ADBRsaKeyModel) :
    Except RustADBError (Option ADBRsaKeyModel) :=
  match fs with
  | .notFound => .ok none
  | .otherError k => .error (.IOError k)
  | .contents text =>
    match new_from_pkcs8 text with
    | .ok pk => .ok (some pk)
    | .error _ => .ok none

/-- `ADBUSBDevice::new_from_transport_inner` (`adb_usb_device.rs` lines
70-87): load the private key, fall back to a freshly generated key
(`new_random`, here a parameter) when none was loaded, then run
`connect`. The value is the connection result under the chosen key. -/
def new_from_transport_inner (fs : FileReadResult)
    (new_from_pkcs8 : String → Except String ADBRsaKeyModel)
    (new_random : ADBRsaKeyModel) (pkg : List Nat) (script : DeviceScript) :
    Except RustADBError SessionState :=
  match read_adb_private_key fs new_from_pkcs8 with
  | .error e => .error e
  | .ok (some pk) => (connect pk pkg script).result
  | .ok none => (connect new_random pkg script).result

/-- The `EndpointDesc` built by `find_endpoints` from a walk element
(`usb_transport.rs` lines 104-107). -/
def endpointDescOf (p : USBAltSetting × USBEndpointInfo) : EndpointDesc :=
  { iface := p.1.interface_number, address := p.2.address }

/-- `i` is a qualifying bulk IN endpoint of the walk of `d`. -/
def qualifiedIn (d : USBDeviceModel) (i : EndpointDesc) : Prop :=
  ∃ p ∈ deviceWalk d,
    qualifiesEndpoint p = true ∧ p.2.direction = .In ∧ i = endpointDescOf p

/-- `o` is a qualifying bulk OUT endpoint of the walk of `d`. -/
def qualifiedOut (d : USBDeviceModel) (o : EndpointDesc) : Prop :=
  ∃ p ∈ deviceWalk d,
    qualifiesEndpoint p = true ∧ p.2.direction = .Out ∧ o = endpointDescOf p

/-- The walk of `d` contains a qualifying IN endpoint. -/
def hasQualIn (d : USBDeviceModel) : Prop :=
  ∃ p ∈ deviceWalk d, qualifiesEndpoint p = true ∧ p.2.direction = .In

/-- The walk of `d` contains a qualifying OUT endpoint. -/
def hasQualOut (d : USBDeviceModel) : Prop :=
  ∃ p ∈ deviceWalk d, qualifiesEndpoint p = true ∧ p.2.direction = .Out

/-- The claim's reading of the result of `find_endpoints`: the first
qualifying IN endpoint and the first qualifying OUT endpoint encountered
in walk order, when both exist. -/
def firstPairClaim (d : USBDeviceModel) :
    Option (EndpointDesc × EndpointDesc) :=
  let quals := (deviceWalk d).filter qualifiesEndpoint
  match quals.find? (fun p => p.2.direction == .In),
      quals.find? (fun p => p.2.direction == .Out) with
  | some pin, some pout => some (endpointDescOf pin, endpointDescOf pout)
  | _, _ => none

/-- A qualifying bulk IN endpoint with address `0x81`. -/
def epIn1 : USBEndpointInfo :=
  { address := 129, direction := .In, transfer_type := .Bulk }

/-- A qualifying bulk IN endpoint with address `0x82`. -/
def epIn2 : USBEndpointInfo :=
  { address := 130, direction := .In, transfer_type := .Bulk }

/-- A qualifying bulk OUT endpoint with address `0x01`. -/
def epOut1 : USBEndpointInfo :=
  { address := 1, direction := .Out, transfer_type := .Bulk }

/-- An ADB interface descriptor (class `0xff`, subclass `0x42`, protocol
`0x01`) on interface number 0 with the given endpoints. -/
def adbAlt (eps : List USBEndpointInfo) : USBAltSetting :=
  { interface_number := 0, interface_class := 0xff, interface_subclass := 0x42,
    interface_protocol := 1, endpoints := eps }

/-- A single-configuration, single-interface device. -/
def mkDevice (vid pid : Nat) (alts : List USBAltSetting) : USBDeviceModel :=
  { vendor_id := vid, product_id := pid, open_ok := true,
    configurations := [{ interfaces := [{ alt_settings := alts }] }] }

/-- A device whose ADB interface lists two bulk IN endpoints before the
bulk OUT endpoint. -/
def devTwoIn : USBDeviceModel := mkDevice 0x18d1 0x4ee7 [adbAlt [epIn1, epIn2, epOut1]]

/-- A device with one bulk IN and one bulk OUT endpoint on the ADB
interface. -/
def devSimple : USBDeviceModel := mkDevice 0x18d1 0x4ee7 [adbAlt [epIn1, epOut1]]

/-- A second qualifying device with distinct identifiers. -/
def devSecond : USBDeviceModel := mkDevice 0x2717 0xff48 [adbAlt [epIn1, epOut1]]

/-- A connected transport state: device open, both endpoints recorded. -/
def stConn : USBTransportState :=
  { device_open := true, read_endpoint := some { iface := 0, address := 129 },
    write_endpoint := some { iface := 0, address := 1 } }

/-- A concrete key model for witnesses. -/
def keyW : ADBRsaKeyModel :=
  { sign := fun payload => payload ++ [1], android_pubkey := [65, 66, 67] }

/-- The bytes of a concrete package name, `"adb"`. -/
def pkgW : List Nat := [97, 100, 98]

/-- A concrete 20-byte token challenge. -/
def tokenW : List Nat := List.replicate 20 5

/-- A device `AUTH` `TOKEN` challenge message. -/
def msgAuthTokenW : ADBTransportMessage :=
  ADBTransportMessage.new AUTH AUTH_TOKEN 0 tokenW

/-- The ASCII bytes of a device banner, `"device::\0"`. -/
def bannerDeviceW : List Nat := [100, 101, 118, 105, 99, 101, 58, 58, 0]

/-- A device `CNXN` reply advertising `max_data = 0x100000`. -/
def msgCnxnMaxW : ADBTransportMessage :=
  ADBTransportMessage.new CNXN 0x01000000 0x100000 bannerDeviceW

/-- A device `CNXN` reply advertising `max_data = 0x40000`. -/
def msgCnxnNoAuthW : ADBTransportMessage :=
  ADBTransportMessage.new CNXN 0x01000000 0x40000 bannerDeviceW

/-- A device reply that is neither `CNXN` nor `AUTH`. -/
def msgOpenW : ADBTransportMessage := ADBTransportMessage.new OPEN 1 0 []

/-- The signature-accepted handshake script: `AUTH` `TOKEN`, then `CNXN`
with `arg1 = 0x100000` after the host's `AUTH` `SIGNATURE`. -/
def scriptSigAccepted : DeviceScript := [(0, msgAuthTokenW), (0, msgCnxnMaxW)]

/-- A concrete header with a two-byte payload whose byte sum is 7. -/
def hdrPayloadW : ADBTransportMessageHeader :=
  { command := OKAY, arg0 := 0, arg1 := 0, data_length := 2, data_crc32 := 7,
    magic := u32not OKAY }

/-- The wire bytes of `hdrPayloadW` followed by its payload `[3, 4]`. -/
def streamPayloadW : List Nat := encodeHeader hdrPayloadW ++ [3, 4]

/-- A bulk completion schedule delivering 24 bytes and then 2 bytes. -/
def schedPayloadW : List Nat := [24, 2]

/-- A concrete header with `data_length = 0` but a nonzero checksum field
`5`; its magic is valid. -/
def hdrZeroCrc5 : ADBTransportMessageHeader :=
  { command := CLSE, arg0 := 0, arg1 := 0, data_length := 0, data_crc32 := 5,
    magic := u32not CLSE }

/-- The filling loop, when it completes, has read exactly `n` bytes, and
those bytes are the prefix of the stream. -/
theorem readExact_spec (sched : List Nat) : ∀ stream n bs s q,
    readExact stream sched n = some (bs, s, q) →
    bs.length = n ∧ stream = bs ++ s := by
  induction sched with
  | nil =>
    intro stream n bs s q h
    cases n with
    | zero =>
      simp [readExact] at h
      obtain ⟨h1, h2, _⟩ := h
      subst h1; subst h2; simp
    | succ m => simp [readExact] at h
  | cons c qtail ih =>
    intro stream n bs s q h
    cases n with
    | zero =>
      simp [readExact] at h
      obtain ⟨h1, h2, _⟩ := h
      subst h1; subst h2; simp
    | succ m =>
      simp only [readExact] at h
      split at h
      · exact ih stream (m + 1) bs s q h
      · split at h
        · exact absurd h (by simp)
        · split at h
          · next bs' s' qq' heq =>
            obtain ⟨hl, hs⟩ := ih _ _ _ _ _ heq
            simp only [Option.some.injEq, Prod.mk.injEq] at h
            obtain ⟨rfl, rfl, rfl⟩ := h
            have hkn : min c (m + 1) ≤ m + 1 := Nat.min_le_right _ _
            have hks : min c (m + 1) ≤ stream.length := by omega
            constructor
            · rw [List.length_append, List.length_take,
                Nat.min_eq_left hks, hl]
              omega
            · calc stream = List.take (min c (m + 1)) stream ++
                    List.drop (min c (m + 1)) stream := by
                    rw [List.take_append_drop]
                _ = List.take (min c (m + 1)) stream ++ (bs' ++ s') := by
                    rw [← hs]
                _ = List.take (min c (m + 1)) stream ++ bs' ++ s' := by
                    rw [List.append_assoc]
          · exact absurd h (by simp)

/-- Claim C4: for every received message whose decoded header has
`data_length > 0`, `read_message_with_timeout` reads exactly `data_length`
payload bytes (looping over bulk-in until filled) and fails with
`InvalidIntegrity (expected, actual)` if and only if the wrapping u32 sum
of the payload bytes differs from the header's `data_crc32` field; when
the sums agree it returns the message. -/
theorem read_message_exact_payload_and_integrity
    (st : USBTransportState) (ep : EndpointDesc)
    (stream sched hb s1 q1 pb s2 q2 : List Nat)
    (hdr : ADBTransportMessageHeader)
    (hep : st.read_endpoint = some ep)
    (h24 : readExact stream sched 24 = some (hb, s1, q1))
    (hhd : decodeHeader hb = .ok hdr)
    (hlen : hdr.data_length ≠ 0)
    (hpl : readExact s1 q1 hdr.data_length = some (pb, s2, q2)) :
    pb.length = hdr.data_length ∧ stream = hb ++ (pb ++ s2) ∧
      read_message_with_timeout st stream sched =
        (if compute_crc32 pb = hdr.data_crc32
         then .ok ({ header := hdr, payload := pb }, s2, q2)
         else .error (.InvalidIntegrity (compute_crc32 pb) hdr.data_crc32)) := by
  obtain ⟨hl1, he1⟩ := readExact_spec sched stream 24 hb s1 q1 h24
  obtain ⟨hl2, he2⟩ := readExact_spec q1 s1 hdr.data_length pb s2 q2 hpl
  refine ⟨hl2, by rw [he1, he2], ?_⟩
  simp only [read_message_with_timeout, hep, h24, hhd, hpl, hlen, ne_eq,
    not_false_eq_true, if_true, ite_true]
  by_cases hc : compute_crc32 pb = hdr.data_crc32
  · simp [check_message_integrity, hc]
  · simp [check_message_integrity, hc]

/-- Witness for C4 at a concrete header, payload and schedule: the
two-byte payload `[3, 4]` of `hdrPayloadW` sums to its checksum field 7,
so the message is returned, exactly 26 bytes having been consumed. -/
theorem read_message_exact_payload_and_integrity_witness :
    ([3, 4] : List Nat).length = hdrPayloadW.data_length ∧
      streamPayloadW = encodeHeader hdrPayloadW ++ ([3, 4] ++ []) ∧
      read_message_with_timeout stConn streamPayloadW schedPayloadW =
        (if compute_crc32 [3, 4] = hdrPayloadW.data_crc32
         then .ok ({ header := hdrPayloadW, payload := [3, 4] }, [], [])
         else .error (.InvalidIntegrity (compute_crc32 [3, 4])
           hdrPayloadW.data_crc32)) :=
  read_message_exact_payload_and_integrity stConn { iface := 0, address := 129 }
    streamPayloadW schedPayloadW (encodeHeader hdrPayloadW) [3, 4] [2] [3, 4] [] []
    hdrPayloadW (by decide) (by decide) (by decide) (by decide) (by decide)

/-- Counterexample to the tail of claim C7: a header with `data_length = 0`
whose checksum field is 5 (not 0) is accepted unchanged by
`read_message_with_timeout` — the checksum field is never validated in
this case. -/
theorem read_message_zero_length_crc_unchecked :
    read_message_with_timeout stConn (encodeHeader hdrZeroCrc5) [24] =
      .ok ({ header := hdrZeroCrc5, payload := [] }, [], []) ∧
    hdrZeroCrc5.data_crc32 ≠ 0 := by decide

/-- Claim C7 as amended: when the decoded header has `data_length = 0`,
`read_message_with_timeout` reads no payload bytes (only the 24 header
bytes are consumed), skips the integrity check, and returns the message
with an empty payload whatever the checksum field holds; the checksum
field is not validated on receive in this case, while locally constructed
messages with empty payloads always carry checksum 0. -/
theorem read_message_zero_length
    (st : USBTransportState) (ep : EndpointDesc)
    (stream sched hb s1 q1 : List Nat)
    (hdr : ADBTransportMessageHeader)
    (hep : st.read_endpoint = some ep)
    (h24 : readExact stream sched 24 = some (hb, s1, q1))
    (hhd : decodeHeader hb = .ok hdr)
    (hlen : hdr.data_length = 0) :
    read_message_with_timeout st stream sched =
        .ok ({ header := hdr, payload := [] }, s1, q1) ∧
      stream = hb ++ s1 ∧ hb.length = 24 ∧
      ∀ command arg0 arg1,
        (ADBTransportMessage.new command arg0 arg1 []).header.data_crc32 = 0 := by
  obtain ⟨hl1, he1⟩ := readExact_spec sched stream 24 hb s1 q1 h24
  refine ⟨?_, he1, hl1, fun _ _ _ => rfl⟩
  simp only [read_message_with_timeout, hep, h24, hhd, hlen, ne_eq,
    not_true_eq_false, if_false, ite_false]

/-- Witness for the amended C7 at a concrete zero-length message. -/
theorem read_message_zero_length_witness :
    read_message_with_timeout stConn (encodeHeader hdrZeroCrc5) [24] =
        .ok ({ header := hdrZeroCrc5, payload := [] }, [], []) ∧
      encodeHeader hdrZeroCrc5 = encodeHeader hdrZeroCrc5 ++ [] ∧
      (encodeHeader hdrZeroCrc5).length = 24 ∧
      ∀ command arg0 arg1,
        (ADBTransportMessage.new command arg0 arg1 []).header.data_crc32 = 0 :=
  read_message_zero_length stConn { iface := 0, address := 129 }
    (encodeHeader hdrZeroCrc5) [24] (encodeHeader hdrZeroCrc5) [] []
    hdrZeroCrc5 (by decide) (by decide) (by decide) (by decide)

/-- Counterexample to claim C3: on a fully connected transport,
`disconnect` surfaces a failing write's error, and even a successful
`disconnect` leaves the device handle and both endpoints recorded — the
state is unchanged, not Disconnected. -/
theorem disconnect_surfaces_error_and_keeps_state :
    (disconnect stConn (.failure (.IOError .TimedOut))).1 =
        .error (.IOError .TimedOut) ∧
      (disconnect stConn .success).2.1 = stConn ∧
      stConn.read_endpoint ≠ none ∧ stConn.write_endpoint ≠ none ∧
      stConn.device_open = true := by decide

/-- Claim C3 as amended: `disconnect()` builds a `CLSE` message with zero
arguments and empty payload and returns the result of `write_message` on
it, so a failing write surfaces to the caller; it leaves the transport
state unchanged (device handle and endpoints stay recorded, the interface
is not explicitly released). Dropping the device calls `disconnect` and
discards its result, so the drop-time close is best-effort. -/
theorem disconnect_sends_clse_and_keeps_state
    (st : USBTransportState) (bus : WriteOutcome) :
    (disconnect st bus).2.2 = ADBTransportMessage.new CLSE 0 0 [] ∧
      (disconnect st bus).1 =
        (write_message st (ADBTransportMessage.new CLSE 0 0 []) bus).1 ∧
      (disconnect st bus).2.1 = st ∧
      dropADBUSBDevice st bus = st := by
  refine ⟨rfl, rfl, ?_, ?_⟩ <;>
    · obtain ⟨d, re, we⟩ := st
      cases we <;> cases bus <;> rfl

/-- Claim C1 (code bug): in the signature-accepted handshake — device
sends `AUTH` `TOKEN`, host sends `AUTH` `SIGNATURE`, device replies `CNXN`
with `arg1 = 0x100000` — `connect` returns `Ok` but leaves the session's
`max_data` at its initial value instead of recording `0x100000`: the
`CNXN` branch after `AUTH SIGNATURE` (`adb_usb_device.rs` lines 146-152)
never calls `set_maximum_data_size`, unlike the no-auth branch (line 123)
and the enrollment branch (line 166). -/
theorem connect_sig_accepted_skips_max_data :
    (connect keyW pkgW scriptSigAccepted).result = .ok initialSession ∧
      initialSession.max_data = 0 ∧
      msgCnxnMaxW.header.arg1 = 0x100000 ∧
      (connect keyW pkgW scriptSigAccepted).result ≠
        .ok { max_data := 0x100000 } := by decide

/-- Claim C9: `connect` first sends a `CNXN` message with
`arg0 = 0x01000000` (the protocol version), `arg1 = 1048576` (1 MiB
advertised `max_data`) and the NUL-terminated payload
`"host::<product-identifier>"`; if the device replies directly with
`CNXN`, the session records `max_data` from that reply's `arg1` and is
Connected. -/
theorem connect_sends_cnxn_then_records_max_data
    (key : ADBRsaKeyModel) (pkg : List Nat) (script : DeviceScript)
    (d1 : Nat) (m1 : ADBTransportMessage) (rest : DeviceScript) :
    (connect key pkg script).sent.head? =
      some (ADBTransportMessage.new CNXN 0x01000000 1048576
        (hostBannerHead ++ pkg ++ [0])) ∧
    (m1.header.command = CNXN →
      (connect key pkg ((d1, m1) :: rest)).result =
        .ok { max_data := m1.header.arg1 }) := by
  constructor
  · cases script with
    | nil => rfl
    | cons hd tl =>
      obtain ⟨d, m⟩ := hd
      simp only [connect, hostBanner]
      repeat first
        | rfl
        | split
  · intro hc
    simp [connect, hc]

/-- Witness for C9: a device that answers the host `CNXN` directly with a
`CNXN` advertising `max_data = 0x40000`. -/
theorem connect_sends_cnxn_then_records_max_data_witness :
    (connect keyW pkgW [(0, msgCnxnNoAuthW)]).sent.head? =
      some (ADBTransportMessage.new CNXN 0x01000000 1048576
        (hostBannerHead ++ pkgW ++ [0])) ∧
    (connect keyW pkgW [(0, msgCnxnNoAuthW)]).result =
      .ok { max_data := msgCnxnNoAuthW.header.arg1 } :=
  ⟨(connect_sends_cnxn_then_records_max_data keyW pkgW [(0, msgCnxnNoAuthW)]
      0 msgCnxnNoAuthW []).1,
   (connect_sends_cnxn_then_records_max_data keyW pkgW [(0, msgCnxnNoAuthW)]
      0 msgCnxnNoAuthW []).2 (by decide)⟩

/-- Claim C10: after sending `AUTH` `SIGNATURE`, `connect` treats any
second reply whose command is not `CNXN` — whatever its command and
`arg0` — as a signature rejection and proceeds to public-key enrollment,
sending `AUTH` `RSAPUBLICKEY` with the NUL-terminated public-key blob; the
second reply is never validated before enrollment. -/
theorem connect_enrolls_after_any_non_cnxn
    (key : ADBRsaKeyModel) (pkg : List Nat) (d1 d2 : Nat)
    (m1 m2 : ADBTransportMessage) (rest : DeviceScript)
    (h1c : m1.header.command = AUTH)
    (h1a : m1.header.arg0 = AUTH_TOKEN)
    (h2 : m2.header.command ≠ CNXN) :
    (connect key pkg ((d1, m1) :: (d2, m2) :: rest)).sent =
      [ADBTransportMessage.new CNXN 0x01000000 1048576
        (hostBannerHead ++ pkg ++ [0]),
       ADBTransportMessage.new AUTH AUTH_SIGNATURE 0 (key.sign m1.payload),
       ADBTransportMessage.new AUTH AUTH_RSAPUBLICKEY 0
         (key.android_pubkey ++ [0])] := by
  simp only [connect, hostBanner, h1c, h1a, h2, ite_false, if_false,
    ne_eq, not_true_eq_false, not_false_eq_true, ite_true, if_true]
  have hac : ¬(AUTH = CNXN) := by decide
  simp only [hac, ite_false, if_false]
  repeat first
    | rfl
    | split

/-- Witness for C10: the device's second reply is an `OPEN` message (so
neither `CNXN` nor a second `AUTH` `TOKEN`); enrollment is still sent. -/
theorem connect_enrolls_after_any_non_cnxn_witness :
    (connect keyW pkgW [(0, msgAuthTokenW), (0, msgOpenW)]).sent =
      [ADBTransportMessage.new CNXN 0x01000000 1048576
        (hostBannerHead ++ pkgW ++ [0]),
       ADBTransportMessage.new AUTH AUTH_SIGNATURE 0 (keyW.sign msgAuthTokenW.payload),
       ADBTransportMessage.new AUTH AUTH_RSAPUBLICKEY 0
         (keyW.android_pubkey ++ [0])] :=
  connect_enrolls_after_any_non_cnxn keyW pkgW 0 0 msgAuthTokenW msgOpenW []
    (by decide) (by decide) (by decide)

/-- Claim C2: after the host sends `AUTH` `RSAPUBLICKEY`, the read of the
device's response is bounded by the 10-second timeout, and if no message
arrives within those 10 seconds `connect` fails with the surfaced timeout
error (the spec's `AuthTimeout`). -/
theorem connect_enrollment_read_times_out
    (key : ADBRsaKeyModel) (pkg : List Nat) (d1 d2 : Nat)
    (m1 m2 : ADBTransportMessage) (rest : DeviceScript)
    (h1c : m1.header.command = AUTH)
    (h1a : m1.header.arg0 = AUTH_TOKEN)
    (h2 : m2.header.command ≠ CNXN)
    (hto : arrivesWithin ENROLL_READ_TIMEOUT_MS rest = false) :
    (connect key pkg ((d1, m1) :: (d2, m2) :: rest)).result =
      .error (.IOError .TimedOut) := by
  simp only [connect, h1c, h1a, h2, ite_false, if_false,
    ne_eq, not_true_eq_false, not_false_eq_true, ite_true, if_true]
  have hac : ¬(AUTH = CNXN) := by decide
  simp only [hac, ite_false, if_false]
  cases rest with
  | nil => rfl
  | cons hd tl =>
    obtain ⟨d3, m3⟩ := hd
    simp only [arrivesWithin] at hto
    have hlt : ENROLL_READ_TIMEOUT_MS < d3 := by
      simp at hto
      omega
    simp only [hlt, ite_true, if_true]

/-- Witness for C2: the enrollment reply arrives after 20 seconds, so
`connect` surfaces the timeout error. -/
theorem connect_enrollment_read_times_out_witness :
    (connect keyW pkgW
        [(0, msgAuthTokenW), (0, msgOpenW), (20000, msgCnxnMaxW)]).result =
      .error (.IOError .TimedOut) :=
  connect_enrollment_read_times_out keyW pkgW 0 0 msgAuthTokenW msgOpenW
    [(20000, msgCnxnMaxW)] (by decide) (by decide) (by decide) (by decide)

/-- Claim C8: when the private-key file is absent, or when its contents
fail to parse as a PKCS#8 PEM key, device construction does not surface an
error from the key step: `read_adb_private_key` returns `Ok(None)` (the
parse failure only being logged) and `new_from_transport_inner` proceeds
exactly as with a freshly generated key. -/
theorem read_adb_private_key_falls_back
    (new_from_pkcs8 : String → Except String ADBRsaKeyModel)
    (new_random : ADBRsaKeyModel) (pkg : List Nat) (script : DeviceScript)
    (text : String) (parseErr : String)
    (hparse : new_from_pkcs8 text = .error parseErr) :
    read_adb_private_key .notFound new_from_pkcs8 = .ok none ∧
      read_adb_private_key (.contents text) new_from_pkcs8 = .ok none ∧
      new_from_transport_inner .notFound new_from_pkcs8 new_random pkg script =
        (connect new_random pkg script).result ∧
      new_from_transport_inner (.contents text) new_from_pkcs8 new_random pkg
          script =
        (connect new_random pkg script).result := by
  refine ⟨rfl, ?_, rfl, ?_⟩
  · simp [read_adb_private_key, hparse]
  · simp [new_from_transport_inner, read_adb_private_key, hparse]

/-- Witness for C8 with a parser that rejects the concrete contents. -/
theorem read_adb_private_key_falls_back_witness :
    read_adb_private_key .notFound (fun _ => .error "invalid key") = .ok none ∧
      read_adb_private_key (.contents "not a pem")
          (fun _ => .error "invalid key") = .ok none ∧
      new_from_transport_inner .notFound (fun _ => .error "invalid key") keyW
          pkgW [(0, msgCnxnNoAuthW)] =
        (connect keyW pkgW [(0, msgCnxnNoAuthW)]).result ∧
      new_from_transport_inner (.contents "not a pem")
          (fun _ => .error "invalid key") keyW pkgW [(0, msgCnxnNoAuthW)] =
        (connect keyW pkgW [(0, msgCnxnNoAuthW)]).result :=
  read_adb_private_key_falls_back (fun _ => .error "invalid key") keyW pkgW
    [(0, msgCnxnNoAuthW)] "not a pem" "invalid key" rfl

/-- Any endpoint returned by the `find_endpoints` loop comes from its
accumulators or from a qualifying endpoint of the remaining walk, with the
matching direction. -/
theorem findLoop_ok_origin : ∀ (l : List (USBAltSetting × USBEndpointInfo))
    (r w : Option EndpointDesc) (i o : EndpointDesc),
    findLoop l r w = .ok (i, o) →
    (r = some i ∨ ∃ p ∈ l, qualifiesEndpoint p = true ∧
        p.2.direction = .In ∧ i = endpointDescOf p) ∧
    (w = some o ∨ ∃ p ∈ l, qualifiesEndpoint p = true ∧
        p.2.direction = .Out ∧ o = endpointDescOf p) := by
  intro l
  induction l with
  | nil => intro r w i o h; simp [findLoop] at h
  | cons p rest ih =>
    intro r w i o h
    simp only [findLoop] at h
    by_cases hq : qualifiesEndpoint p = true
    · rw [if_pos hq] at h
      cases hd : p.2.direction with
      | In =>
        rw [hd] at h
        cases w with
        | some we =>
          simp only [Except.ok.injEq, Prod.mk.injEq] at h
          obtain ⟨hi, ho⟩ := h
          exact ⟨Or.inr ⟨p, List.mem_cons_self p rest, hq, hd, hi.symm⟩,
            Or.inl (by rw [ho])⟩
        | none =>
          obtain ⟨hin, hout⟩ := ih (some (endpointDescOf p)) none i o h
          constructor
          · cases hin with
            | inl he =>
              exact Or.inr ⟨p, List.mem_cons_self p rest, hq, hd,
                (Option.some_inj.mp he).symm⟩
            | inr hex =>
              obtain ⟨p', hp', hprop⟩ := hex
              exact Or.inr ⟨p', List.mem_cons_of_mem p hp', hprop⟩
          · cases hout with
            | inl he => exact absurd he (by simp)
            | inr hex =>
              obtain ⟨p', hp', hprop⟩ := hex
              exact Or.inr ⟨p', List.mem_cons_of_mem p hp', hprop⟩
      | Out =>
        rw [hd] at h
        cases r with
        | some re =>
          simp only [Except.ok.injEq, Prod.mk.injEq] at h
          obtain ⟨hi, ho⟩ := h
          exact ⟨Or.inl (by rw [hi]),
            Or.inr ⟨p, List.mem_cons_self p rest, hq, hd, ho.symm⟩⟩
        | none =>
          obtain ⟨hin, hout⟩ := ih none (some (endpointDescOf p)) i o h
          constructor
          · cases hin with
            | inl he => exact absurd he (by simp)
            | inr hex =>
              obtain ⟨p', hp', hprop⟩ := hex
              exact Or.inr ⟨p', List.mem_cons_of_mem p hp', hprop⟩
          · cases hout with
            | inl he =>
              exact Or.inr ⟨p, List.mem_cons_self p rest, hq, hd,
                (Option.some_inj.mp he).symm⟩
            | inr hex =>
              obtain ⟨p', hp', hprop⟩ := hex
              exact Or.inr ⟨p', List.mem_cons_of_mem p hp', hprop⟩
    · rw [if_neg hq] at h
      obtain ⟨hin, hout⟩ := ih r w i o h
      constructor
      · cases hin with
        | inl he => exact Or.inl he
        | inr hex =>
          obtain ⟨p', hp', hprop⟩ := hex
          exact Or.inr ⟨p', List.mem_cons_of_mem p hp', hprop⟩
      · cases hout with
        | inl he => exact Or.inl he
        | inr hex =>
          obtain ⟨p', hp', hprop⟩ := hex
          exact Or.inr ⟨p', List.mem_cons_of_mem p hp', hprop⟩

/-- When the remaining walk has no qualifying IN endpoint and no IN
endpoint is saved, the loop ends with `USBNoDescriptorFound`. -/
theorem findLoop_err_noIn : ∀ (l : List (USBAltSetting × USBEndpointInfo))
    (w : Option EndpointDesc),
    (∀ p ∈ l, ¬(qualifiesEndpoint p = true ∧ p.2.direction = .In)) →
    findLoop l none w = .error .USBNoDescriptorFound := by
  intro l
  induction l with
  | nil => intro w _; rfl
  | cons p rest ih =>
    intro w hno
    simp only [findLoop]
    by_cases hq : qualifiesEndpoint p = true
    · rw [if_pos hq]
      cases hd : p.2.direction with
      | In => exact absurd ⟨hq, hd⟩ (hno p (List.mem_cons_self p rest))
      | Out => exact ih _ fun p' hp' => hno p' (List.mem_cons_of_mem p hp')
    · rw [if_neg hq]
      exact ih w fun p' hp' => hno p' (List.mem_cons_of_mem p hp')

/-- When the remaining walk has no qualifying OUT endpoint and no OUT
endpoint is saved, the loop ends with `USBNoDescriptorFound`. -/
theorem findLoop_err_noOut : ∀ (l : List (USBAltSetting × USBEndpointInfo))
    (r : Option EndpointDesc),
    (∀ p ∈ l, ¬(qualifiesEndpoint p = true ∧ p.2.direction = .Out)) →
    findLoop l r none = .error .USBNoDescriptorFound := by
  intro l
  induction l with
  | nil => intro r _; rfl
  | cons p rest ih =>
    intro r hno
    simp only [findLoop]
    by_cases hq : qualifiesEndpoint p = true
    · rw [if_pos hq]
      cases hd : p.2.direction with
      | Out => exact absurd ⟨hq, hd⟩ (hno p (List.mem_cons_self p rest))
      | In =>
        cases r with
        | some re => exact ih _ fun p' hp' => hno p' (List.mem_cons_of_mem p hp')
        | none => exact ih _ fun p' hp' => hno p' (List.mem_cons_of_mem p hp')
    · rw [if_neg hq]
      exact ih r fun p' hp' => hno p' (List.mem_cons_of_mem p hp')

/-- When at most one accumulator is filled and each direction is available
(saved already, or present as a qualifying endpoint of the remaining
walk), the loop returns a pair. -/
theorem findLoop_ok_exists : ∀ (l : List (USBAltSetting × USBEndpointInfo))
    (r w : Option EndpointDesc),
    ¬(r.isSome = true ∧ w.isSome = true) →
    (r.isSome = true ∨ ∃ p ∈ l, qualifiesEndpoint p = true ∧ p.2.direction = .In) →
    (w.isSome = true ∨ ∃ p ∈ l, qualifiesEndpoint p = true ∧ p.2.direction = .Out) →
    ∃ x, findLoop l r w = .ok x := by
  intro l
  induction l with
  | nil =>
    intro r w hboth hin hout
    cases hin with
    | inl hr =>
      cases hout with
      | inl hw => exact absurd ⟨hr, hw⟩ hboth
      | inr hex => obtain ⟨p, hp, _⟩ := hex; exact absurd hp (List.not_mem_nil p)
    | inr hex => obtain ⟨p, hp, _⟩ := hex; exact absurd hp (List.not_mem_nil p)
  | cons p rest ih =>
    intro r w hboth hin hout
    by_cases hq : qualifiesEndpoint p = true
    · cases hd : p.2.direction with
      | In =>
        cases hw : w with
        | some we =>
          exact ⟨(endpointDescOf p, we), by simp [findLoop, hq, hd, endpointDescOf]⟩
        | none =>
          refine ih (some (endpointDescOf p)) none (by simp) (Or.inl rfl) ?_
            |>.imp ?_
          · cases hout with
            | inl hws => rw [hw] at hws; exact absurd hws (by simp)
            | inr hex =>
              obtain ⟨p', hp', hq', hd'⟩ := hex
              cases List.mem_cons.mp hp' with
              | inl heq => rw [heq, hd] at hd'; exact absurd hd' (by simp)
              | inr hmem => exact Or.inr ⟨p', hmem, hq', hd'⟩
          · intro x hx
            simpa [findLoop, hq, hd, endpointDescOf] using hx
      | Out =>
        cases hr : r with
        | some re =>
          exact ⟨(re, endpointDescOf p), by simp [findLoop, hq, hd, endpointDescOf]⟩
        | none =>
          refine ih none (some (endpointDescOf p)) (by simp) ?_ (Or.inl rfl)
            |>.imp ?_
          · cases hin with
            | inl hrs => rw [hr] at hrs; exact absurd hrs (by simp)
            | inr hex =>
              obtain ⟨p', hp', hq', hd'⟩ := hex
              cases List.mem_cons.mp hp' with
              | inl heq => rw [heq, hd] at hd'; exact absurd hd' (by simp)
              | inr hmem => exact Or.inr ⟨p', hmem, hq', hd'⟩
          · intro x hx
            simpa [findLoop, hq, hd, endpointDescOf] using hx
    · refine (ih r w hboth ?_ ?_).imp ?_
      · cases hin with
        | inl hr => exact Or.inl hr
        | inr hex =>
          obtain ⟨p', hp', hq', hd'⟩ := hex
          cases List.mem_cons.mp hp' with
          | inl heq => rw [heq] at hq'; exact absurd hq' hq
          | inr hmem => exact Or.inr ⟨p', hmem, hq', hd'⟩
      · cases hout with
        | inl hw => exact Or.inl hw
        | inr hex =>
          obtain ⟨p', hp', hq', hd'⟩ := hex
          cases List.mem_cons.mp hp' with
          | inl heq => rw [heq] at hq'; exact absurd hq' hq
          | inr hmem => exact Or.inr ⟨p', hmem, hq', hd'⟩
      · intro x hx
        simpa [findLoop, hq] using hx

/-- Counterexample to claim C5: on a device whose qualifying alt-setting
lists two bulk IN endpoints (`0x81`, then `0x82`) before the bulk OUT
endpoint, `find_endpoints` returns the second IN endpoint, not the first
qualifying `(IN, OUT)` pair encountered in walk order: the saved IN
endpoint is overwritten by each later qualifying IN until an OUT
completes the pair. -/
theorem find_endpoints_not_first_pair :
    find_endpoints devTwoIn =
        .ok ({ iface := 0, address := 130 }, { iface := 0, address := 1 }) ∧
      firstPairClaim devTwoIn =
        some ({ iface := 0, address := 129 }, { iface := 0, address := 1 }) ∧
      ({ iface := 0, address := 130 } : EndpointDesc) ≠
        { iface := 0, address := 129 } := by decide

/-- Claim C5 as amended: `find_endpoints` walks configurations, then
interfaces, then alt-settings, then endpoints; an endpoint qualifies only
if it is a bulk endpoint on an interface with class `0xff`, subclass
`0x42`, protocol `0x01`; the function returns a qualifying `(IN, OUT)`
endpoint pair — not necessarily the pair of first-encountered endpoints of
each direction, since the saved endpoint of a direction is overwritten by
later qualifying endpoints of the same direction until the pair completes
— and fails with `USBNoDescriptorFound` exactly when the walk contains no
qualifying IN endpoint or no qualifying OUT endpoint. -/
theorem find_endpoints_qualifying_pair (d : USBDeviceModel) :
    (∀ i o, find_endpoints d = .ok (i, o) →
      qualifiedIn d i ∧ qualifiedOut d o) ∧
    (find_endpoints d = .error .USBNoDescriptorFound ↔
      ¬hasQualIn d ∨ ¬hasQualOut d) := by
  constructor
  · intro i o h
    obtain ⟨hin, hout⟩ := findLoop_ok_origin (deviceWalk d) none none i o h
    constructor
    · cases hin with
      | inl he => exact absurd he (by simp)
      | inr hex => exact hex
    · cases hout with
      | inl he => exact absurd he (by simp)
      | inr hex => exact hex
  · constructor
    · intro herr
      by_contra hcon
      push_neg at hcon
      obtain ⟨hinn, houtn⟩ := hcon
      obtain ⟨x, hx⟩ := findLoop_ok_exists (deviceWalk d) none none
        (by simp) (Or.inr hinn) (Or.inr houtn)
      rw [find_endpoints] at herr
      rw [hx] at herr
      exact absurd herr (by simp)
    · intro hmiss
      cases hmiss with
      | inl hno =>
        rw [find_endpoints]
        apply findLoop_err_noIn
        intro p hp hcontra
        exact hno ⟨p, hp, hcontra⟩
      | inr hno =>
        rw [find_endpoints]
        apply findLoop_err_noOut
        intro p hp hcontra
        exact hno ⟨p, hp, hcontra⟩

/-- Witness for the amended C5: on the simple device, the returned pair is
made of qualifying IN and OUT endpoints of the walk. -/
theorem find_endpoints_qualifying_pair_witness :
    qualifiedIn devSimple { iface := 0, address := 129 } ∧
      qualifiedOut devSimple { iface := 0, address := 1 } :=
  (find_endpoints_qualifying_pair devSimple).1
    { iface := 0, address := 129 } { iface := 0, address := 1 } (by decide)

/-- Claim C6: `search_adb_devices` qualifies a device iff some interface
descriptor has protocol `0x01` and either class `0xff` with subclass
`0x42` or class `0xdc` with subclass `0x02`; among openable devices it
returns `None` when no device qualifies, the single `(vendor_id,
product_id)` pair when exactly one qualifies, and fails with the ambiguous
`DeviceNotFound` error citing both `vendor:product` pairs when two or more
qualify. -/
theorem search_adb_devices_qualification :
    (∀ d : USBDeviceModel, is_adb_device d = true ↔
      ∃ c ∈ d.configurations, ∃ i ∈ c.interfaces, ∃ a ∈ i.alt_settings,
        a.interface_protocol = 1 ∧
          ((a.interface_class = 0xff ∧ a.interface_subclass = 0x42) ∨
           (a.interface_class = 0xdc ∧ a.interface_subclass = 2))) ∧
    ∀ devices : List USBDeviceModel,
      (∀ d ∈ devices, d.open_ok = true) →
      ((devices.filter fun d => is_adb_device d) = [] →
        search_adb_devices devices = .ok none) ∧
      (∀ d1, (devices.filter fun d => is_adb_device d) = [d1] →
        search_adb_devices devices = .ok (some (d1.vendor_id, d1.product_id))) ∧
      (∀ d1 d2 tl,
        (devices.filter fun d => is_adb_device d) = d1 :: d2 :: tl →
        search_adb_devices devices = .error (.DeviceNotFound
          (ambiguousMessage d1.vendor_id d1.product_id
            d2.vendor_id d2.product_id))) := by
  constructor
  · intro d
    simp [is_adb_device, List.any_eq_true, Bool.and_eq_true, Bool.or_eq_true,
      beq_iff_eq]
  · intro devices hopen
    have hfe : (devices.filter fun d => d.open_ok && is_adb_device d) =
        devices.filter fun d => is_adb_device d := by
      apply List.filter_congr
      intro d hd
      rw [hopen d hd, Bool.true_and]
    refine ⟨?_, ?_, ?_⟩
    · intro h
      simp only [search_adb_devices, hfe, h, List.map_nil]
    · intro d1 h
      simp only [search_adb_devices, hfe, h, List.map_cons, List.map_nil]
    · intro d1 d2 tl h
      simp only [search_adb_devices, hfe, h, List.map_cons]

/-- Witness for C6: two qualifying devices give the ambiguous error citing
`18d1:4ee7` and `2717:ff48`. -/
theorem search_adb_devices_qualification_witness :
    search_adb_devices [devSimple, devSecond] = .error (.DeviceNotFound
      (ambiguousMessage devSimple.vendor_id devSimple.product_id
        devSecond.vendor_id devSecond.product_id)) :=
  ((search_adb_devices_qualification.2 [devSimple, devSecond]
      (by decide)).2.2) devSimple devSecond [] (by decide)
